import Mathlib

/-!
Verification of the billing/metering and request-lifecycle engine of the
Swarms API gateway (src/api/api.py), as a shallow embedding in Lean 4.

Python floats are modelled as exact rationals, machine integers as Nat/Int,
and the external collaborators (token counter, execution engine, credit
store, wall clock) as explicit oracle parameters.  Module-level constants
are embedded with their effective values after the whole module body has
executed (Python rebinds globals, and functions read them at call time).
-/

namespace SwarmsApi

/-- HTTP-style structured error, as raised via HTTPException in api.py. -/
structure HttpErr where
  code : Nat
  detail : String
deriving DecidableEq, Repr

/-- Truncation toward zero of a rational, the behaviour of Python int() on
a Decimal or float value. -/
def pyInt (x : ℚ) : ℤ := x.num / (x.den : ℤ)

/-- Rounding to d decimal places, the behaviour of Python round(x, d)
(modulo the half-even tie rule, which no claim exercises). -/
def roundTo (d : Nat) (x : ℚ) : ℚ := ((round (x * (10 : ℚ) ^ d) : ℤ) : ℚ) / (10 : ℚ) ^ d

/-- Rounding of monetary outputs in api.py: round(x, 6). -/
def round6 (x : ℚ) : ℚ := roundTo 6 x

/-- Rounding of execution times in api.py: round(x, 2). -/
def round2 (x : ℚ) : ℚ := roundTo 2 x

/-- Python float modulo on rationals, x % m for positive m. -/
def qmod (x m : ℚ) : ℚ := x - m * (⌊x / m⌋ : ℚ)

/-- The external token counter count_tokens, an oracle mapping text to a
token count.  It is fed an Option because calculate_swarm_cost passes
swarm_spec.task through unchecked, which may be None. -/
abbrev Tok := Option String → Nat

/-! ## Token/Cost Estimator (calculate_swarm_cost, src/api/api.py:1003-1140) -/

/-- Constant COST_PER_AGENT = 0.01 (src/api/api.py:1025). -/
def COST_PER_AGENT : ℚ := 1 / 100

/-- Constant COST_PER_1M_INPUT_TOKENS = 2.00 (src/api/api.py:1026). -/
def COST_PER_1M_INPUT_TOKENS : ℚ := 2

/-- Constant COST_PER_1M_OUTPUT_TOKENS = 4.50 (src/api/api.py:1027). -/
def COST_PER_1M_OUTPUT_TOKENS : ℚ := 9 / 2

/-- Constant FLEX_INPUT_DISCOUNT = 0.25 (src/api/api.py:1030). -/
def FLEX_INPUT_DISCOUNT : ℚ := 1 / 4

/-- Constant FLEX_OUTPUT_DISCOUNT = 0.25 (src/api/api.py:1031). -/
def FLEX_OUTPUT_DISCOUNT : ℚ := 1 / 4

/-- Night-time test of api.py:1036: current_time.hour >= 20 or
current_time.hour < 6, where hour is the wall-clock hour in the
America/Los_Angeles reference timezone (passed here as an oracle). -/
def is_night_time (hour : Nat) : Bool := decide (hour ≥ 20) || decide (hour < 6)

/-- The billing-relevant data of one constructed Agent as read by
calculate_swarm_cost: its name, its system prompt (None when absent), and
its short-term memory serialization (None when retrieval raises). -/
structure BillingAgent where
  agent_name : String
  system_prompt : Option String
  memory : Option String
deriving DecidableEq, Repr

/-- The agent_outputs argument of calculate_swarm_cost
(Union of a message list, a string, a dict, or None).  A dict carries its
emptiness (Python truthiness) and its any_to_str serialization; a message
list carries the content field of each message. -/
inductive AgentOutputs where
  | nothing : AgentOutputs
  | msgList (contents : List String) : AgentOutputs
  | str (s : String) : AgentOutputs
  | dict (nonempty : Bool) (serialized : String) : AgentOutputs
deriving DecidableEq, Repr

/-- Python truthiness of the agent_outputs value (the if agent_outputs
test at src/api/api.py:1067). -/
def AgentOutputs.truthy : AgentOutputs → Bool
  | .nothing => false
  | .msgList l => decide (l ≠ [])
  | .str s => decide (s ≠ "")
  | .dict ne _ => ne

/-- Per-agent input token count (src/api/api.py:1049-1064): base task
tokens, plus system prompt tokens when the prompt is truthy, plus memory
tokens when the memory is retrievable and truthy. -/
def agentInputTokens (tok : Tok) (task_tokens : Nat) (a : BillingAgent) : Nat :=
  task_tokens
    + (match a.system_prompt with
       | some s => if s = "" then 0 else tok (some s)
       | none => 0)
    + (match a.memory with
       | some m => if m = "" then 0 else tok (some m)
       | none => 0)

/-- Per-agent output token count (src/api/api.py:1066-1082): when concrete
outputs are available (truthy), count their serialized tokens; otherwise
the estimate int(agent_input_tokens * 2.5), which truncates. -/
def outputTokensOf (tok : Tok) (agent_outputs : AgentOutputs) (agent_input_tokens : Nat) : Nat :=
  if agent_outputs.truthy then
    match agent_outputs with
    | .msgList contents => (contents.map (fun c => tok (some c))).sum
    | .str s => tok (some s)
    | .dict _ serialized => tok (some serialized)
    | .nothing => 0
  else
    5 * agent_input_tokens / 2

/-- The cost breakdown dictionary returned by calculate_swarm_cost
(src/api/api.py:1117-1134).  per_agent lists, in order, each agent's
name with its input, output and total token counts. -/
structure CostOutput where
  agent_cost : ℚ
  input_token_cost : ℚ
  output_token_cost : ℚ
  total_input_tokens : Nat
  total_output_tokens : Nat
  total_tokens : Nat
  per_agent : List (String × Nat × Nat × Nat)
  num_agents : Nat
  execution_time_seconds : ℚ
  service_tier : String
  night_time_discount_applied : Bool
  total_cost : ℚ
deriving DecidableEq, Repr

/-- Embedding of calculate_swarm_cost (src/api/api.py:1003-1140).  The
wall-clock hour in the America/Los_Angeles timezone is an explicit
parameter, standing for the datetime.now call. -/
def calculate_swarm_cost (tok : Tok) (agents : List BillingAgent) (input_text : Option String)
    (execution_time : ℚ) (agent_outputs : AgentOutputs) (service_tier : String)
    (hour : Nat) : CostOutput :=
  let task_tokens := tok input_text
  let per_agent := agents.map (fun a =>
    let inTok := agentInputTokens tok task_tokens a
    let outTok := outputTokensOf tok agent_outputs inTok
    (a.agent_name, inTok, outTok, inTok + outTok))
  let total_input_tokens := (per_agent.map (fun x => x.2.1)).sum
  let total_output_tokens := (per_agent.map (fun x => x.2.2.1)).sum
  let n := agents.length
  let agent_cost : ℚ := (n : ℚ) * COST_PER_AGENT
  let input_cost_base : ℚ :=
    ((total_input_tokens : ℚ) / 1000000) * COST_PER_1M_INPUT_TOKENS * (n : ℚ)
  let output_cost_base : ℚ :=
    ((total_output_tokens : ℚ) / 1000000) * COST_PER_1M_OUTPUT_TOKENS * (n : ℚ)
  let input_cost_flex :=
    if service_tier = "flex" then input_cost_base * FLEX_INPUT_DISCOUNT else input_cost_base
  let output_cost_flex :=
    if service_tier = "flex" then output_cost_base * FLEX_OUTPUT_DISCOUNT else output_cost_base
  let input_token_cost :=
    if is_night_time hour then input_cost_flex * (1 / 4) else input_cost_flex
  let output_token_cost :=
    if is_night_time hour then output_cost_flex * (1 / 4) else output_cost_flex
  let total_cost := agent_cost + input_token_cost + output_token_cost
  { agent_cost := round6 agent_cost
    input_token_cost := round6 input_token_cost
    output_token_cost := round6 output_token_cost
    total_input_tokens := total_input_tokens
    total_output_tokens := total_output_tokens
    total_tokens := total_input_tokens + total_output_tokens
    per_agent := per_agent
    num_agents := n
    execution_time_seconds := round2 execution_time
    service_tier := service_tier
    night_time_discount_applied := is_night_time hour
    total_cost := round6 total_cost }

/-- The discount factor on the token cost terms: 0.25 for the flex tier
and, independently, 0.25 during night hours in the reference timezone. -/
def discount_factor (service_tier : String) (hour : Nat) : ℚ :=
  (if service_tier = "flex" then (1 : ℚ) / 4 else 1)
    * (if is_night_time hour then (1 : ℚ) / 4 else 1)

/-! ## Credit Ledger (deduct_credits, src/api/api.py:918-1000) -/

/-- One row of the swarms_cloud_services transaction table as inserted by
deduct_credits (src/api/api.py:957-970).  charge_credit is int(deduction):
the code stores the charge truncated to an integer. -/
structure LedgerRecord where
  user_id : String
  api_key : String
  charge_credit : ℤ
  product_name : String
deriving DecidableEq, Repr

/-- The caller's row of swarms_cloud_users_credits (balances) together
with the transaction log.  free_credit is the promotional balance, credit
the paid balance. -/
structure LedgerState where
  free_credit : ℚ
  credit : ℚ
  records : List LedgerRecord
deriving DecidableEq, Repr

/-- Error raised when the user's credit record is missing (404). -/
def errAccountNotFound : HttpErr := ⟨404, "User credits record not found."⟩

/-- Error raised on insufficient total credit (402). -/
def errInsufficientCredits : HttpErr := ⟨402, "Insufficient credits."⟩

/-- Error raised when the transaction log insert returns no data (500). -/
def errLogFailed : HttpErr := ⟨500, "Failed to log the credit transaction."⟩

/-- Error raised when the balance update returns no data (500). -/
def errUpdateFailed : HttpErr := ⟨500, "Failed to update credits."⟩

/-- External collaborators of the gateway, as oracles: the token counter,
the litellm model catalog, the engine and agent run results (indexed by
invocation count), the credit-store row lookup and write outcomes, the
execution timer and the reference-timezone wall-clock hour. -/
structure Env where
  tok : Tok
  model_list : List String
  engineResults : Nat → Except HttpErr AgentOutputs
  agentResults : Nat → Except String String
  userId : String
  accountExists : Bool
  insertOk : Bool
  updateOk : Bool
  execTime : ℚ
  hour : Nat

/-- Embedding of deduct_credits (src/api/api.py:918-1000).  Reads the
caller's balances, verifies sufficiency, inserts the transaction record,
then updates the balances, spending free_credit before credit; each
database write can fail per the environment's oracles, in which case the
corresponding HTTPException is raised with the state reached so far. -/
def deduct_credits (env : Env) (api_key : String) (amount : ℚ) (product_name : String)
    (st : LedgerState) : Except HttpErr Unit × LedgerState :=
  if ¬ env.accountExists then
    (.error errAccountNotFound, st)
  else
    let available_credit := st.credit
    let free_credit := st.free_credit
    let deduction := amount
    if available_credit + free_credit < deduction then
      (.error errInsufficientCredits, st)
    else if ¬ env.insertOk then
      (.error errLogFailed, st)
    else
      let st1 : LedgerState :=
        { st with records :=
            st.records ++ [⟨env.userId, api_key, pyInt deduction, product_name⟩] }
      let newBalances : ℚ × ℚ :=
        if free_credit ≥ deduction then
          (free_credit - deduction, available_credit)
        else
          (0, available_credit - (deduction - free_credit))
      if ¬ env.updateOk then
        (.error errUpdateFailed, st1)
      else
        (.ok (), { st1 with free_credit := newBalances.1, credit := newBalances.2 })

/-- A fully healthy environment at a concrete instant (midday, standard
conditions), used to evaluate the embedding on concrete inputs. -/
def cEnvGood : Env :=
  { tok := fun _ => 1
    model_list := ["gpt-4o-mini"]
    engineResults := fun _ => .ok (.str "out")
    agentResults := fun _ => .ok "out"
    userId := "user1"
    accountExists := true
    insertOk := true
    updateOk := true
    execTime := 1
    hour := 12 }

/-- The healthy environment except that the transaction-log insert fails. -/
def cEnvNoInsert : Env := { cEnvGood with insertOk := false }

/-- Helper: a successful deduction appends exactly the one transaction
record written at src/api/api.py:957-970 to the log. -/
lemma deduct_ok_records (env : Env) (api_key product_name : String)
    (st : LedgerState) (amount : ℚ)
    (h : (deduct_credits env api_key amount product_name st).1 = .ok ()) :
    (deduct_credits env api_key amount product_name st).2.records
      = st.records ++ [⟨env.userId, api_key, pyInt amount, product_name⟩] := by
  unfold deduct_credits at h ⊢
  by_cases h1 : env.accountExists
  · by_cases h2 : st.credit + st.free_credit < amount
    · simp [h1, h2] at h
    · by_cases h3 : env.insertOk
      · by_cases h4 : env.updateOk
        · simp [h1, h2, h3, h4]
        · simp [h1, h2, h3, h4] at h
      · simp [h1, h2, h3] at h
  · simp [h1] at h

/-! ## Job specifications (AgentSpec / SwarmSpec, src/api/api.py:104-254) -/

/-- The billing- and validation-relevant fields of AgentSpec, with
defaults already resolved, plus the short-term memory serialization the
constructed Agent would report (None when retrieval raises). -/
structure AgentSpecM where
  agent_name : Option String
  description : Option String
  system_prompt : Option String
  model_name : Option String
  temperature : ℚ
  max_loops : Nat
  memory : Option String
deriving DecidableEq, Repr

/-- The lifecycle-relevant fields of SwarmSpec.  messages stands for the
message list through its any_to_str serialization (None when absent). -/
structure SwarmSpecM where
  name : Option String
  description : Option String
  agents : Option (List AgentSpecM)
  max_loops : Nat
  swarm_type : Option String
  task : Option String
  return_history : Bool
  tasks : Option (List String)
  messages : Option String
  service_tier : String
deriving DecidableEq, Repr

/-- Python str() of an optional string: None prints as the word None. -/
def optStr : Option String → String
  | some s => s
  | none => "None"

/-- Python truthiness of an optional string (None and the empty string
are falsy). -/
def truthyOptStr : Option String → Bool
  | some s => decide (s ≠ "")
  | none => false

/-- Python truthiness of an optional list (None and the empty list are
falsy). -/
def truthyOptList : Option (List String) → Bool
  | some l => decide (l ≠ [])
  | none => false

/-- Error of src/api/api.py:494-497: no task, tasks or messages. -/
def errNoTask : HttpErr := ⟨400, "There is no task or tasks or messages provided."⟩

/-- Error of check_model_name (src/api/api.py:293-298). -/
def errModelUnavailable : HttpErr := ⟨400, "Model is not available."⟩

/-- Error of count_and_validate_prompts (src/api/api.py:528-533). -/
def errPromptTooLong : HttpErr := ⟨400, "Prompt is too long."⟩

/-- Agent-name validation error of create_single_agent (src/api/api.py:556). -/
def errAgentNameRequired : HttpErr := ⟨400, "Agent validation error: Agent name is required."⟩

/-- Model-name validation error of create_single_agent (src/api/api.py:558). -/
def errModelNameRequired : HttpErr := ⟨400, "Agent validation error: Model name is required."⟩

/-- Agent-name validation error of the agent-completion path (src/api/api.py:1262-1265). -/
def errAgentNameRequiredEndpoint : HttpErr := ⟨400, "Agent name is required"⟩

/-- Wrapper error of the generic exception handler of run_swarm_completion
(src/api/api.py:909-915), raised for example when len(None) is evaluated
on a missing agent list. -/
def errRunSwarmFailed : HttpErr := ⟨500, "Failed to run swarm."⟩

/-- Embedding of check_model_name (src/api/api.py:293-298): the model
name must appear in the litellm model catalog (None never does). -/
def check_model_name (model_list : List String) : Option String → Bool
  | some m => model_list.contains m
  | none => false

/-- Per-agent validation loop of validate_swarm_spec
(src/api/api.py:513-523): model availability then combined prompt
length. -/
def validateAgents (tok : Tok) (model_list : List String) : List AgentSpecM → Except HttpErr Unit
  | [] => .ok ()
  | a :: rest =>
    if ¬ check_model_name model_list a.model_name then .error errModelUnavailable
    else if tok (some ((a.system_prompt.getD "") ++ (a.description.getD "")
        ++ (a.agent_name.getD ""))) > 200000 then .error errPromptTooLong
    else validateAgents tok model_list rest

/-- Embedding of validate_swarm_spec (src/api/api.py:477-525): requires a
truthy task, tasks or messages; resolves the executable input with task
taking precedence over messages over tasks; validates each agent. -/
def validate_swarm_spec (tok : Tok) (model_list : List String) (s : SwarmSpecM) :
    Except HttpErr (Option String × Option (List String)) :=
  if ¬ (truthyOptStr s.task || truthyOptList s.tasks || truthyOptStr s.messages) then
    .error errNoTask
  else
    let task : Option String :=
      if s.task.isSome then s.task
      else if s.messages.isSome then s.messages
      else none
    let tasks : Option (List String) :=
      if s.task = none ∧ s.messages = none then s.tasks else none
    match s.agents with
    | some ags =>
      match validateAgents tok model_list ags with
      | .ok _ => .ok (task, tasks)
      | .error e => .error e
    | none => .ok (task, tasks)

/-- Embedding of create_single_agent (src/api/api.py:536-594), reduced to
its billing-relevant outcome: name and model must be truthy, and the
constructed agent carries the name, system prompt and memory. -/
def create_single_agent (a : AgentSpecM) : Except HttpErr BillingAgent :=
  if ¬ truthyOptStr a.agent_name then .error errAgentNameRequired
  else if ¬ truthyOptStr a.model_name then .error errModelNameRequired
  else .ok ⟨a.agent_name.getD "", a.system_prompt, a.memory⟩

/-- The agent-construction loop of create_swarm (src/api/api.py:616-646).
The source builds agents in a thread pool and collects them as completed;
the collection order is modelled as the submission order. -/
def createAgents : List AgentSpecM → Except HttpErr (List BillingAgent)
  | [] => .ok []
  | a :: rest =>
    match create_single_agent a with
    | .error e => .error e
    | .ok b =>
      match createAgents rest with
      | .error e => .error e
      | .ok bs => .ok (b :: bs)

/-! ## Response cache (src/api/api.py:746-809, 1565-1578)

The module assigns CACHE_TTL = 3600 at line 748 and CACHE_CLEANUP_INTERVAL
= 300 at line 750, then rebinds the same module-level names to 300 and 60
at lines 1567-1568.  Python functions read globals at call time, after the
whole module body has executed, so every cache consults the rebound
values. -/

/-- The value assigned to CACHE_TTL at src/api/api.py:748, documented
there as one hour in seconds. -/
def CACHE_TTL_as_written : Nat := 3600

/-- The effective value of CACHE_TTL at call time, after the rebinding at
src/api/api.py:1567. -/
def CACHE_TTL : Nat := 300

/-- Constant MAX_CACHE_SIZE (src/api/api.py:749). -/
def MAX_CACHE_SIZE : Nat := 1000

/-- The effective value of CACHE_CLEANUP_INTERVAL at call time, after the
rebinding at src/api/api.py:1568. -/
def CACHE_CLEANUP_INTERVAL : Nat := 60

/-- The gateway response envelope built by run_swarm_completion
(src/api/api.py:878-893); tasks and messages are echoed exactly when
present on the spec. -/
structure SwarmResponse where
  job_id : String
  status : String
  swarm_name : Option String
  description : Option String
  swarm_type : Option String
  output : AgentOutputs
  number_of_agents : Nat
  service_tier : String
  tasks : Option (List String)
  messages : Option String
deriving DecidableEq, Repr

/-- One entry of the module-level context_cache dict: the stored response
envelope and its creation timestamp. -/
structure SwarmCacheEntry where
  response : SwarmResponse
  timestamp : ℚ
deriving DecidableEq, Repr

/-- The gateway response envelope built by the agent-completion path
(src/api/api.py:1309-1318), with the usage dictionary inlined. -/
structure AgentEnvelope where
  id : String
  success : Bool
  name : Option String
  description : Option String
  temperature : ℚ
  outputs : String
  input_tokens : Nat
  output_tokens : Nat
  total_tokens : Nat
deriving DecidableEq, Repr

/-- One entry of the module-level agent_cache dict. -/
structure AgentCacheEntry where
  response : AgentEnvelope
  timestamp : ℚ
deriving DecidableEq, Repr

/-- The agent_cache key (src/api/api.py:1279-1281): the agent
configuration together with the task. -/
abbrev AgentCacheKey := AgentSpecM × Option String

/-- The mutable process state touched by the request paths: both caches,
the caller's ledger row and transaction log, the number of engine and
single-agent invocations so far, and the log of backoff sleeps. -/
structure St where
  context_cache : List (String × SwarmCacheEntry)
  agent_cache : List (AgentCacheKey × AgentCacheEntry)
  ledger : LedgerState
  engineCalls : Nat
  agentRuns : Nat
  sleeps : List Nat
deriving DecidableEq

/-- Dict membership plus timestamp retrieval on the context cache. -/
def lookupCache (cache : List (String × SwarmCacheEntry)) (key : String) :
    Option SwarmCacheEntry :=
  match cache.find? (fun kv => kv.1 == key) with
  | some kv => some kv.2
  | none => none

/-- The str of one agent configuration dict appended to the cache key
parts (src/api/api.py:767-778). -/
def agentConfigStr (a : AgentSpecM) : String :=
  "(name:" ++ optStr a.agent_name ++ ",model:" ++ optStr a.model_name
    ++ ",prompt:" ++ optStr a.system_prompt ++ ",temp:" ++ toString a.temperature
    ++ ",max_loops:" ++ toString a.max_loops ++ ")"

/-- The joined cache key string once the three unconverted key parts are
known to be strings: the output-relevant fields, the per-agent
configurations, and the tasks and messages when truthy
(src/api/api.py:758-786). -/
def generate_cache_key_joined (s : SwarmSpecM) (name task swarm_type : String) : String :=
  let base := [name, task, swarm_type,
               toString s.max_loops, toString s.return_history]
  let agentParts :=
    match s.agents with
    | some ags => if ags.isEmpty then [] else ags.map agentConfigStr
    | none => []
  let taskParts :=
    match s.tasks with
    | some ts => if ts.isEmpty then [] else [toString ts]
    | none => []
  let msgParts :=
    match s.messages with
    | some m => if m = "" then [] else [m]
    | none => []
  String.intercalate "|" (base ++ agentParts ++ taskParts ++ msgParts)

/-- Embedding of generate_cache_key (src/api/api.py:753-786).  key_parts
holds swarm.name, swarm.task and swarm.swarm_type unconverted, so the
final str.join raises TypeError whenever one of the three is None; the
none result models that raise (run_swarm_completion's generic handler
turns it into a 500 before any cache lookup, engine call or billing). -/
def generate_cache_key (s : SwarmSpecM) : Option String :=
  match s.name, s.task, s.swarm_type with
  | some name, some task, some swarm_type =>
      some (generate_cache_key_joined s name task swarm_type)
  | _, _, _ => none

/-- Stable insertion into a timestamp-ascending list, modelling Python
sorted by timestamp. -/
def insertByTimestamp (x : String × SwarmCacheEntry) :
    List (String × SwarmCacheEntry) → List (String × SwarmCacheEntry)
  | [] => [x]
  | y :: ys =>
    if x.2.timestamp < y.2.timestamp then x :: y :: ys else y :: insertByTimestamp x ys

/-- Sorting the cache entries oldest first, modelling the sorted call of
cleanup_cache (src/api/api.py:806). -/
def sortByTimestamp (l : List (String × SwarmCacheEntry)) :
    List (String × SwarmCacheEntry) :=
  l.foldr insertByTimestamp []

/-- Embedding of cleanup_cache (src/api/api.py:789-809): drop entries of
age at least CACHE_TTL, then, if still above MAX_CACHE_SIZE, drop the
oldest entries until back at the cap. -/
def cleanup_cache (now : ℚ) (cache : List (String × SwarmCacheEntry)) :
    List (String × SwarmCacheEntry) :=
  let fresh := cache.filter (fun kv => decide (now - kv.2.timestamp < (CACHE_TTL : ℚ)))
  if fresh.length > MAX_CACHE_SIZE then
    (sortByTimestamp fresh).drop (fresh.length - MAX_CACHE_SIZE)
  else fresh

/-! ## Gateway orchestrator (create_swarm and run_swarm_completion,
src/api/api.py:597-703 and 812-915) -/

/-- Embedding of create_swarm (src/api/api.py:597-703): validate the
spec, build the agents, run the engine once (the n-th engine invocation
consults the engine oracle at index n), compute the cost and deduct the
credits; every failure surfaces as the corresponding HTTPException. -/
def create_swarm (env : Env) (api_key : String) (spec : SwarmSpecM) (st : St) :
    Except HttpErr AgentOutputs × St :=
  match validate_swarm_spec env.tok env.model_list spec with
  | .error e => (.error e, st)
  | .ok _ =>
    match createAgents (spec.agents.getD []) with
    | .error e => (.error e, st)
    | .ok agents =>
      let st1 := { st with engineCalls := st.engineCalls + 1 }
      match env.engineResults st.engineCalls with
      | .error e => (.error e, st1)
      | .ok output =>
        let cost_info := calculate_swarm_cost env.tok agents spec.task env.execTime output
          spec.service_tier env.hour
        match deduct_credits env api_key cost_info.total_cost
            ("swarm_execution_" ++ optStr spec.name) st.ledger with
        | (.error e, led) => (.error e, { st1 with ledger := led })
        | (.ok _, led) => (.ok output, { st1 with ledger := led })

/-- The flex-processing retry loop of run_swarm_completion
(src/api/api.py:842-865): on a 429 failure in flex mode with attempts
remaining, sleep 5 * 2 to the attempt and retry; any other failure, or
exhausted attempts, surfaces immediately. -/
def run_attempts (env : Env) (api_key : String) (spec : SwarmSpecM) (maxRetries : Nat) :
    Nat → St → Except HttpErr AgentOutputs × St
  | attempt, st =>
    match create_swarm env api_key spec st with
    | (.ok r, st1) => (.ok r, st1)
    | (.error e, st1) =>
      if h : e.code = 429 ∧ spec.service_tier = "flex" ∧ attempt + 1 < maxRetries then
        run_attempts env api_key spec maxRetries (attempt + 1)
          { st1 with sleeps := st1.sleeps ++ [2 ^ attempt * 5] }
      else (.error e, st1)
termination_by attempt => maxRetries - attempt
decreasing_by
  obtain ⟨-, -, h3⟩ := h
  omega

/-- The cache-miss path of run_swarm_completion (src/api/api.py:833-904):
fail with the wrapped 500 when the agent list is missing (len(None)
raises), else run the retry loop, assemble the response envelope, store
it in the cache, and run the periodic cleanup when the wall clock falls
in the sampling window. -/
def run_swarm_fresh (env : Env) (api_key : String) (spec : SwarmSpecM) (now : ℚ)
    (job_id : String) (cache_key : String) (st : St) : Except HttpErr SwarmResponse × St :=
  match spec.agents with
  | none => (.error errRunSwarmFailed, st)
  | some ags =>
    let max_retries := if spec.service_tier = "flex" then 3 else 1
    match run_attempts env api_key spec max_retries 0 st with
    | (.error e, st1) => (.error e, st1)
    | (.ok result, st1) =>
      let number_of_agents := if spec.swarm_type = some "MALT" then 14 else ags.length
      let response : SwarmResponse :=
        { job_id := job_id, status := "success", swarm_name := spec.name,
          description := spec.description, swarm_type := spec.swarm_type,
          output := result, number_of_agents := number_of_agents,
          service_tier := spec.service_tier, tasks := spec.tasks,
          messages := spec.messages }
      let cache1 := (st1.context_cache.filter (fun kv => !(kv.1 == cache_key)))
        ++ [(cache_key, ⟨response, now⟩)]
      let cache2 :=
        if qmod now (CACHE_CLEANUP_INTERVAL : ℚ) < 1 then cleanup_cache now cache1 else cache1
      (.ok response, { st1 with context_cache := cache2 })

/-- Embedding of run_swarm_completion (src/api/api.py:812-915): the cache
key is computed first (its TypeError on a None name, task or swarm_type
is caught by the generic handler as a 500 before anything else happens);
then a cache hit younger than the effective CACHE_TTL returns the stored
envelope with no other effect, and otherwise the fresh path runs.  The
wall clock and the generated job id are explicit parameters. -/
def run_swarm_completion (env : Env) (api_key : String) (spec : SwarmSpecM) (now : ℚ)
    (job_id : String) (st : St) : Except HttpErr SwarmResponse × St :=
  match generate_cache_key spec with
  | none => (.error errRunSwarmFailed, st)
  | some cache_key =>
    match lookupCache st.context_cache cache_key with
    | some entry =>
      if now - entry.timestamp < (CACHE_TTL : ℚ) then (.ok entry.response, st)
      else run_swarm_fresh env api_key spec now job_id cache_key st
    | none => run_swarm_fresh env api_key spec now job_id cache_key st

/-! ## Agent completion path (src/api/api.py:1241-1383) -/

/-- The billing-relevant fields of AgentCompletion; history stands for
the history dictionary through its serialization (None when absent). -/
structure AgentCompletionM where
  agent_config : AgentSpecM
  task : Option String
  history : Option String
deriving DecidableEq, Repr

/-- The combined prompt of src/api/api.py:1250-1257. -/
def combinedPromptOf (ac : AgentCompletionM) : String :=
  (ac.agent_config.system_prompt.getD "") ++ (ac.task.getD "")
    ++ (ac.agent_config.description.getD "") ++ (ac.agent_config.agent_name.getD "")
    ++ (ac.history.getD "")

/-- Embedding of cleanup_agent_cache (src/api/api.py:1571-1578): drop
entries strictly older than the effective CACHE_TTL. -/
def cleanup_agent_cache (now : ℚ) (cache : List (AgentCacheKey × AgentCacheEntry)) :
    List (AgentCacheKey × AgentCacheEntry) :=
  cache.filter (fun kv => ! decide ((CACHE_TTL : ℚ) < now - kv.2.timestamp))

/-- The cache-miss path of the agent completion (src/api/api.py:1288-1329):
run the agent (the n-th run consults the agent oracle at index n), count
tokens, assemble the envelope with success true, store it in the agent
cache and run the periodic cleanup.  No credit deduction appears anywhere
on this path. -/
def run_agent_fresh (env : Env) (ac : AgentCompletionM) (now : ℚ) (resp_id : String)
    (cache_key : AgentCacheKey) (combined_prompt : String) (st : St) :
    Except HttpErr AgentEnvelope × St :=
  let st1 := { st with agentRuns := st.agentRuns + 1 }
  match env.agentResults st.agentRuns with
  | .error msg => (.error ⟨500, "An unexpected error occurred: " ++ msg⟩, st1)
  | .ok result =>
    let input_tokens := env.tok (some combined_prompt)
    let output_tokens := env.tok (some result)
    let envl : AgentEnvelope :=
      { id := resp_id, success := true, name := ac.agent_config.agent_name,
        description := ac.agent_config.description,
        temperature := ac.agent_config.temperature,
        outputs := result, input_tokens := input_tokens,
        output_tokens := output_tokens,
        total_tokens := input_tokens + output_tokens }
    let cache1 := (st1.agent_cache.filter (fun kv => !(kv.1 == cache_key)))
      ++ [(cache_key, ⟨envl, now⟩)]
    let cache2 :=
      if qmod now (CACHE_CLEANUP_INTERVAL : ℚ) < 1 then cleanup_agent_cache now cache1
      else cache1
    (.ok envl, { st1 with agent_cache := cache2 })

/-- Embedding of the awaited execution of the async _run_agent_completion
(src/api/api.py:1241-1339), as invoked with await by the run_agent
endpoint: validate the prompt length, the model name and the agent name,
consult the agent cache (hit when age is at most the effective CACHE_TTL),
and otherwise run the fresh path. -/
def run_agent_completion (env : Env) (ac : AgentCompletionM) (now : ℚ) (resp_id : String)
    (st : St) : Except HttpErr AgentEnvelope × St :=
  if env.tok (some (combinedPromptOf ac)) > 200000 then (.error errPromptTooLong, st)
  else if ¬ check_model_name env.model_list ac.agent_config.model_name then
    (.error errModelUnavailable, st)
  else if ¬ truthyOptStr ac.agent_config.agent_name then
    (.error errAgentNameRequiredEndpoint, st)
  else
    match st.agent_cache.find? (fun kv => kv.1 == (ac.agent_config, ac.task)) with
    | some kv =>
      if now - kv.2.timestamp ≤ (CACHE_TTL : ℚ) then (.ok kv.2.response, st)
      else run_agent_fresh env ac now resp_id (ac.agent_config, ac.task)
        (combinedPromptOf ac) st
    | none => run_agent_fresh env ac now resp_id (ac.agent_config, ac.task)
        (combinedPromptOf ac) st

/-- One entry of the list returned by batched_agent_completion: the
envelope a completed task would produce, the error dictionary of the
except branch, or an unawaited coroutine object. -/
inductive BatchEntry where
  | envelope (e : AgentEnvelope) : BatchEntry
  | errorEntry (msg : String) : BatchEntry
  | coroutine (req : AgentCompletionM) : BatchEntry
deriving DecidableEq, Repr

/-- Faithful embedding of batched_agent_completion
(src/api/api.py:1342-1383).  _run_agent_completion is an async coroutine
function and the loop calls it without await, so each iteration binds an
unawaited coroutine object: no request is processed inside the loop, the
call never raises, the except branch that would append an error entry is
unreachable, and the process state is untouched.  An empty input raises
ValueError. -/
def batched_agent_completion (reqs : List AgentCompletionM) (st : St) :
    Except String (List BatchEntry) × St :=
  if reqs.isEmpty then (.error "No agent completions provided", st)
  else (.ok (reqs.map BatchEntry.coroutine), st)

/-! ## Concrete instances for evaluation -/

/-- A valid concrete agent specification. -/
def cAgentSpec : AgentSpecM :=
  { agent_name := some "a", description := none, system_prompt := none,
    model_name := some "gpt-4o-mini", temperature := 1 / 2, max_loops := 1,
    memory := none }

/-- A valid concrete agent-completion request. -/
def cAc : AgentCompletionM :=
  { agent_config := cAgentSpec, task := some "t", history := none }

/-- An agent-completion request whose model name is not in the catalog. -/
def cBadReq : AgentCompletionM :=
  { agent_config := { cAgentSpec with model_name := some "nope" },
    task := some "t", history := none }

/-- A valid concrete standard-tier swarm specification with one agent. -/
def cSpec : SwarmSpecM :=
  { name := some "s", description := none, agents := some [cAgentSpec],
    max_loops := 1, swarm_type := none, task := some "t", return_history := true,
    tasks := none, messages := none, service_tier := "standard" }

/-- The concrete swarm specification on the flex tier. -/
def cSpecFlex : SwarmSpecM := { cSpec with service_tier := "flex" }

/-- The concrete specification with an explicit swarm type: all three
unconverted key parts (name, task, swarm_type) are strings, so
generate_cache_key succeeds on it. -/
def cSpecK : SwarmSpecM := { cSpec with swarm_type := some "SequentialWorkflow" }

/-- The cache key the gateway computes for cSpecK (kept symbolic). -/
def cKeyK : String := generate_cache_key_joined cSpecK "s" "t" "SequentialWorkflow"

/-- The healthy environment with a token counter that reports zero for
every text, making every cost come out at the flat fee exactly. -/
def cEnvTok0 : Env := { cEnvGood with tok := fun _ => 0 }

/-- The healthy environment except that the engine persistently reports
the resource-unavailable condition. -/
def cEnv429 : Env :=
  { cEnvGood with engineResults := fun _ => .error ⟨429, "Resource unavailable"⟩ }

/-- A concrete initial process state: empty caches, no prior engine or
agent invocations, promotional balance 5 and paid balance 10. -/
def cSt : St :=
  { context_cache := [], agent_cache := [], ledger := ⟨5, 10, []⟩,
    engineCalls := 0, agentRuns := 0, sleeps := [] }

/-! ## Theorems about the estimator -/

/-- C1: for every job, agent cost is numAgents times 0.01; the input and
output token costs are the aggregate token counts over a million, times
the 2.00 and 4.50 rates, times the agent count, times the discount factor
d (which never touches the flat fee); the total is the rounded sum of the
three unrounded components; and d is 1/16 for flex at 21:00 reference
time and 1 for standard at 12:00. -/
theorem cost_breakdown_formula (tok : Tok) (agents : List BillingAgent)
    (input_text : Option String) (execution_time : ℚ) (agent_outputs : AgentOutputs)
    (service_tier : String) (hour : Nat) :
    (calculate_swarm_cost tok agents input_text execution_time agent_outputs service_tier hour).agent_cost
      = round6 ((agents.length : ℚ) * (1 / 100))
    ∧ (calculate_swarm_cost tok agents input_text execution_time agent_outputs service_tier hour).input_token_cost
      = round6
          ((((calculate_swarm_cost tok agents input_text execution_time agent_outputs service_tier hour).total_input_tokens : ℚ) / 1000000)
            * 2 * (agents.length : ℚ) * discount_factor service_tier hour)
    ∧ (calculate_swarm_cost tok agents input_text execution_time agent_outputs service_tier hour).output_token_cost
      = round6
          ((((calculate_swarm_cost tok agents input_text execution_time agent_outputs service_tier hour).total_output_tokens : ℚ) / 1000000)
            * (9 / 2) * (agents.length : ℚ) * discount_factor service_tier hour)
    ∧ (calculate_swarm_cost tok agents input_text execution_time agent_outputs service_tier hour).total_cost
      = round6
          ((agents.length : ℚ) * (1 / 100)
            + (((calculate_swarm_cost tok agents input_text execution_time agent_outputs service_tier hour).total_input_tokens : ℚ) / 1000000)
              * 2 * (agents.length : ℚ) * discount_factor service_tier hour
            + (((calculate_swarm_cost tok agents input_text execution_time agent_outputs service_tier hour).total_output_tokens : ℚ) / 1000000)
              * (9 / 2) * (agents.length : ℚ) * discount_factor service_tier hour)
    ∧ discount_factor "flex" 21 = 1 / 16
    ∧ discount_factor "standard" 12 = 1 := by
  refine ⟨?_, ?_, ?_, ?_, ?_, ?_⟩
  · simp [calculate_swarm_cost, COST_PER_AGENT]
  · simp only [calculate_swarm_cost, discount_factor, COST_PER_1M_INPUT_TOKENS,
      FLEX_INPUT_DISCOUNT]
    by_cases hf : service_tier = "flex" <;> cases hn : is_night_time hour <;>
      simp [hf, hn] <;> (congr 1; ring)
  · simp only [calculate_swarm_cost, discount_factor, COST_PER_1M_OUTPUT_TOKENS,
      FLEX_OUTPUT_DISCOUNT]
    by_cases hf : service_tier = "flex" <;> cases hn : is_night_time hour <;>
      simp [hf, hn] <;> (congr 1; ring)
  · simp only [calculate_swarm_cost, discount_factor, COST_PER_AGENT,
      COST_PER_1M_INPUT_TOKENS, COST_PER_1M_OUTPUT_TOKENS, FLEX_INPUT_DISCOUNT,
      FLEX_OUTPUT_DISCOUNT]
    by_cases hf : service_tier = "flex" <;> cases hn : is_night_time hour <;>
      simp [hf, hn] <;> (congr 1; ring)
  · norm_num [discount_factor, is_night_time]
  · simp [discount_factor, is_night_time]

/-- C4 counterexample: with no concrete output payload, an agent whose
input-token count is 3 gets an estimated output-token count of 7 (the code
truncates int(3 * 2.5) = 7), whereas round(3 * 2.5) = 8: the claimed
rounding does not describe the code. -/
theorem output_estimate_truncates_not_rounds :
    outputTokensOf (fun _ => 0) AgentOutputs.nothing 3 = 7
    ∧ round ((3 : ℚ) * (5 / 2)) = 8 := by
  constructor
  · rfl
  · norm_num [round_eq]

/-- C4 amended: for every agent for which no concrete output payload is
available (the outputs value is falsy), the estimator sets that agent's
output-token count to the floor (truncation) of inputTokens times 2.5,
not to its rounding. -/
theorem output_estimate_floor (tok : Tok) (agent_outputs : AgentOutputs) (n : Nat)
    (h : agent_outputs.truthy = false) :
    outputTokensOf tok agent_outputs n = ⌊(n : ℚ) * (5 / 2)⌋₊ := by
  unfold outputTokensOf
  rw [h]
  simp only [Bool.false_eq_true, if_false]
  rw [show ((n : ℚ) * (5 / 2)) = ((5 * n : ℕ) : ℚ) / ((2 : ℕ) : ℚ) by push_cast; ring]
  rw [Nat.floor_div_nat, Nat.floor_natCast]

/-- Witness for output_estimate_floor at a concrete falsy output value and
input-token count 3. -/
theorem output_estimate_floor_witness :
    AgentOutputs.truthy AgentOutputs.nothing = false
    ∧ outputTokensOf (fun _ => 0) AgentOutputs.nothing 3 = ⌊((3 : Nat) : ℚ) * (5 / 2)⌋₊ :=
  ⟨rfl, output_estimate_floor (fun _ => 0) AgentOutputs.nothing 3 rfl⟩

/-! ## Theorems about the ledger -/

/-- C2: when the account exists and both database writes succeed, a
deduction of amount m from promotional balance p and paid balance q fails
with the insufficient-credit error leaving the state untouched when
p + q < m; otherwise it succeeds, the promotional balance becomes
max(0, p - m) and the paid balance becomes q - max(0, m - p). -/
theorem deduct_credits_two_tier (env : Env) (api_key product_name : String)
    (st : LedgerState) (amount : ℚ)
    (hA : env.accountExists = true) (hI : env.insertOk = true) (hU : env.updateOk = true) :
    (st.free_credit + st.credit < amount →
      deduct_credits env api_key amount product_name st = (.error errInsufficientCredits, st))
    ∧ (st.free_credit + st.credit ≥ amount →
        (deduct_credits env api_key amount product_name st).1 = .ok ()
        ∧ (deduct_credits env api_key amount product_name st).2.free_credit
            = max 0 (st.free_credit - amount)
        ∧ (deduct_credits env api_key amount product_name st).2.credit
            = st.credit - max 0 (amount - st.free_credit)) := by
  unfold deduct_credits
  rw [hA, hI, hU]
  constructor
  · intro h
    rw [if_neg (by simp), if_pos (by linarith)]
  · intro h
    rw [if_neg (by simp), if_neg (by intro hc; linarith), if_neg (by simp),
      if_neg (by simp)]
    by_cases hfree : st.free_credit ≥ amount
    · rw [if_pos hfree]
      refine ⟨rfl, ?_, ?_⟩
      · simp only
        rw [max_eq_right (by linarith)]
      · simp only
        rw [max_eq_left (by linarith)]
        ring
    · rw [if_neg hfree]
      push_neg at hfree
      refine ⟨rfl, ?_, ?_⟩
      · simp only
        rw [max_eq_left (by linarith)]
      · simp only
        rw [max_eq_right (by linarith)]

/-- Witness for deduct_credits_two_tier: from promotional 5 and paid 10, a
deduction of 12 succeeds leaving promotional 0 and paid 3, and a deduction
of 20 fails with the insufficient-credit error leaving both unchanged. -/
theorem deduct_credits_two_tier_witness :
    ((5 : ℚ) + 10 ≥ 12
      ∧ (deduct_credits cEnvGood "k" 12 "p" ⟨5, 10, []⟩).1 = .ok ()
      ∧ (deduct_credits cEnvGood "k" 12 "p" ⟨5, 10, []⟩).2.free_credit = 0
      ∧ (deduct_credits cEnvGood "k" 12 "p" ⟨5, 10, []⟩).2.credit = 3)
    ∧ ((5 : ℚ) + 10 < 20
      ∧ deduct_credits cEnvGood "k" 20 "p" ⟨5, 10, []⟩
          = (.error errInsufficientCredits, ⟨5, 10, []⟩)) := by
  have hok := (deduct_credits_two_tier cEnvGood "k" "p" ⟨5, 10, []⟩ 12 rfl rfl rfl).2
    (by norm_num)
  have hfail := (deduct_credits_two_tier cEnvGood "k" "p" ⟨5, 10, []⟩ 20 rfl rfl rfl).1
    (by norm_num)
  refine ⟨⟨by norm_num, hok.1, ?_, ?_⟩, ⟨by norm_num, hfail⟩⟩
  · rw [hok.2.1]; norm_num
  · rw [hok.2.2]; norm_num

/-- C5 counterexample: a successful deduction of amount 1.5 writes a
transaction record whose charge_credit field is the truncated integer 1,
which is not the deducted amount: the record does not carry the deducted
amount as claimed. -/
theorem ledger_record_truncated_amount :
    (deduct_credits cEnvGood "k" (3 / 2) "p" ⟨5, 10, []⟩).1 = .ok ()
    ∧ (deduct_credits cEnvGood "k" (3 / 2) "p" ⟨5, 10, []⟩).2.records
        = [⟨"user1", "k", 1, "p"⟩]
    ∧ ¬ (((1 : ℤ) : ℚ) = 3 / 2) := by
  refine ⟨?_, ?_, by norm_num⟩ <;> norm_num [deduct_credits, cEnvGood, pyInt]

/-- C5 amended: every successful deduction appends exactly one transaction
record, carrying the caller identity and the deducted amount truncated to
an integer (int(deduction)), before the balance update; and when the
record write fails the operation surfaces an error with both balances (and
the record list) unchanged. -/
theorem ledger_record_write_amended (env : Env) (api_key product_name : String)
    (st : LedgerState) (amount : ℚ) :
    ((deduct_credits env api_key amount product_name st).1 = .ok () →
      (deduct_credits env api_key amount product_name st).2.records
        = st.records ++ [⟨env.userId, api_key, pyInt amount, product_name⟩])
    ∧ (env.accountExists = true → env.insertOk = false →
        st.credit + st.free_credit ≥ amount →
        deduct_credits env api_key amount product_name st = (.error errLogFailed, st)) := by
  constructor
  · exact deduct_ok_records env api_key product_name st amount
  · intro hA hI h
    unfold deduct_credits
    rw [hA, hI]
    rw [if_neg (by simp), if_neg (by intro hc; linarith), if_pos (by simp)]

/-- Witness for ledger_record_write_amended: the successful 1.5 deduction
appends the single truncated record, and with a failing log insert the
same deduction surfaces the log error leaving the state untouched. -/
theorem ledger_record_write_amended_witness :
    (deduct_credits cEnvGood "k" (3 / 2) "p" ⟨5, 10, []⟩).2.records
      = [] ++ [⟨"user1", "k", pyInt (3 / 2), "p"⟩]
    ∧ deduct_credits cEnvNoInsert "k" (3 / 2) "p" ⟨5, 10, []⟩
        = (.error errLogFailed, ⟨5, 10, []⟩) := by
  constructor
  · exact (ledger_record_write_amended cEnvGood "k" "p" ⟨5, 10, []⟩ (3 / 2)).1
      (by norm_num [deduct_credits, cEnvGood])
  · exact (ledger_record_write_amended cEnvNoInsert "k" "p" ⟨5, 10, []⟩ (3 / 2)).2
      rfl rfl (by norm_num)

/-! ## Theorems about billing on the request paths -/

/-- Helper: the agent-completion fresh path never touches the ledger. -/
lemma run_agent_fresh_ledger (env : Env) (ac : AgentCompletionM) (now : ℚ)
    (resp_id : String) (cache_key : AgentCacheKey) (combined_prompt : String) (st : St) :
    (run_agent_fresh env ac now resp_id cache_key combined_prompt st).2.ledger = st.ledger := by
  unfold run_agent_fresh
  split
  · rfl
  · split <;> rfl

/-- Helper: a successful create_swarm run validated its spec, built its
agents, took its output from the engine oracle at the current invocation
index, and committed exactly the deduction of the computed cost. -/
lemma create_swarm_ok_elim (env : Env) (api_key : String) (spec : SwarmSpecM) (st : St)
    (out : AgentOutputs) (h : (create_swarm env api_key spec st).1 = .ok out) :
    ∃ agents, createAgents (spec.agents.getD []) = .ok agents
      ∧ env.engineResults st.engineCalls = .ok out
      ∧ create_swarm env api_key spec st
        = (.ok out,
           { st with
              engineCalls := st.engineCalls + 1,
              ledger := (deduct_credits env api_key
                (calculate_swarm_cost env.tok agents spec.task env.execTime out
                  spec.service_tier env.hour).total_cost
                ("swarm_execution_" ++ optStr spec.name) st.ledger).2 })
      ∧ (deduct_credits env api_key
           (calculate_swarm_cost env.tok agents spec.task env.execTime out
             spec.service_tier env.hour).total_cost
           ("swarm_execution_" ++ optStr spec.name) st.ledger).1 = .ok () := by
  unfold create_swarm at h
  cases hv : validate_swarm_spec env.tok env.model_list spec with
  | error e => rw [hv] at h; simp at h
  | ok tt =>
    simp only [hv] at h
    cases hc : createAgents (spec.agents.getD []) with
    | error e => rw [hc] at h; simp at h
    | ok agents =>
      simp only [hc] at h
      cases he : env.engineResults st.engineCalls with
      | error e => rw [he] at h; simp at h
      | ok output =>
        simp only [he] at h
        rcases hd : deduct_credits env api_key
            (calculate_swarm_cost env.tok agents spec.task env.execTime output
              spec.service_tier env.hour).total_cost
            ("swarm_execution_" ++ optStr spec.name) st.ledger with ⟨res, led⟩
        simp only [hd] at h
        cases res with
        | error e => simp at h
        | ok u =>
          replace h : output = out := by simpa using h
          subst h
          refine ⟨agents, rfl, rfl, ?_, by rw [hd]⟩
          unfold create_swarm
          simp only [hv, hc, he, hd]

/-- C3 counterexample: at a valid agent-completion request against a fresh
state, the gateway returns a success envelope while the caller's ledger is
untouched: a successful uncached execution with no corresponding credit
deduction. -/
theorem agent_completion_bills_nothing :
    (run_agent_completion cEnvGood cAc 1 "agent-1" cSt).1
      = .ok { id := "agent-1", success := true, name := some "a", description := none,
              temperature := 1 / 2, outputs := "out", input_tokens := 1,
              output_tokens := 1, total_tokens := 2 }
    ∧ (run_agent_completion cEnvGood cAc 1 "agent-1" cSt).2.ledger = cSt.ledger := by
  constructor
  · unfold run_agent_completion run_agent_fresh
    norm_num [cEnvGood, cAc, cAgentSpec, cSt, combinedPromptOf, check_model_name,
      truthyOptStr, qmod, CACHE_CLEANUP_INTERVAL]
    rw [if_neg (by decide)]
  · unfold run_agent_completion
    split
    · rfl
    · split
      · rfl
      · split
        · rfl
        · split
          · split
            · rfl
            · exact run_agent_fresh_ledger ..
          · exact run_agent_fresh_ledger ..

/-- C3 amended: every successful create_swarm execution has deducted the
computed cost (exactly one new transaction record) before the result is
returned, while the single-agent completion path never touches the
ledger at all. -/
theorem billing_on_success_amended :
    (∀ (env : Env) (api_key : String) (spec : SwarmSpecM) (st : St) (out : AgentOutputs),
      (create_swarm env api_key spec st).1 = .ok out →
      (create_swarm env api_key spec st).2.ledger.records.length
        = st.ledger.records.length + 1)
    ∧ (∀ (env : Env) (ac : AgentCompletionM) (now : ℚ) (resp_id : String) (st : St),
        (run_agent_completion env ac now resp_id st).2.ledger = st.ledger) := by
  constructor
  · intro env api_key spec st out h
    obtain ⟨agents, hc, he, heq, hded⟩ := create_swarm_ok_elim env api_key spec st out h
    rw [heq]
    have hrec := deduct_ok_records env api_key ("swarm_execution_" ++ optStr spec.name)
      st.ledger (calculate_swarm_cost env.tok agents spec.task env.execTime out
        spec.service_tier env.hour).total_cost hded
    simp [hrec]
  · intro env ac now resp_id st
    unfold run_agent_completion
    split
    · rfl
    · split
      · rfl
      · split
        · rfl
        · split
          · split
            · rfl
            · exact run_agent_fresh_ledger ..
          · exact run_agent_fresh_ledger ..

/-! ## Theorems about the flex retry loop -/

/-- Helper: one loop iteration whose create_swarm attempt succeeds
returns that success. -/
lemma run_attempts_ok (env : Env) (api_key : String) (spec : SwarmSpecM)
    (maxRetries attempt : Nat) (st : St) (r : AgentOutputs) (st1 : St)
    (h : create_swarm env api_key spec st = (.ok r, st1)) :
    run_attempts env api_key spec maxRetries attempt st = (.ok r, st1) := by
  rw [run_attempts, h]

/-- Helper: one loop iteration whose attempt fails retryably recurses
after recording the backoff sleep. -/
lemma run_attempts_err_retry (env : Env) (api_key : String) (spec : SwarmSpecM)
    (maxRetries attempt : Nat) (st : St) (e : HttpErr) (st1 : St)
    (h : create_swarm env api_key spec st = (.error e, st1))
    (hc : e.code = 429 ∧ spec.service_tier = "flex" ∧ attempt + 1 < maxRetries) :
    run_attempts env api_key spec maxRetries attempt st
      = run_attempts env api_key spec maxRetries (attempt + 1)
          { st1 with sleeps := st1.sleeps ++ [2 ^ attempt * 5] } := by
  rw [run_attempts, h]
  exact dif_pos hc

/-- Helper: one loop iteration whose attempt fails non-retryably surfaces
the error. -/
lemma run_attempts_err_stop (env : Env) (api_key : String) (spec : SwarmSpecM)
    (maxRetries attempt : Nat) (st : St) (e : HttpErr) (st1 : St)
    (h : create_swarm env api_key spec st = (.error e, st1))
    (hc : ¬ (e.code = 429 ∧ spec.service_tier = "flex" ∧ attempt + 1 < maxRetries)) :
    run_attempts env api_key spec maxRetries attempt st = (.error e, st1) := by
  rw [run_attempts, h]
  exact dif_neg hc

/-- Helper: when every create_swarm attempt fails with the same 429 error
on the flex tier, the three-attempt loop makes exactly three attempts,
sleeping 5 then 10 seconds between them, and surfaces the error. -/
lemma run_attempts_const429 (env : Env) (api_key : String) (spec : SwarmSpecM) (st : St)
    (e : HttpErr)
    (hcs : ∀ st' : St, create_swarm env api_key spec st'
      = (.error e, { st' with engineCalls := st'.engineCalls + 1 }))
    (h429 : e.code = 429) (hflex : spec.service_tier = "flex") :
    run_attempts env api_key spec 3 0 st
      = (.error e,
         { st with
            engineCalls := st.engineCalls + 3,
            sleeps := st.sleeps ++ [5, 10] }) := by
  rw [run_attempts_err_retry env api_key spec 3 0 st e _ (hcs st)
    ⟨h429, hflex, by norm_num⟩]
  rw [run_attempts_err_retry env api_key spec 3 1 _ e _ (hcs _)
    ⟨h429, hflex, by norm_num⟩]
  rw [run_attempts_err_stop env api_key spec 3 2 _ e _ (hcs _)
    (by rintro ⟨-, -, hh⟩; omega)]
  simp

/-- C7 counterexample: on the flex tier with the engine persistently
resource-unavailable, the loop makes three attempts and sleeps only 5 and
10 seconds before surfacing the failure: the claimed 20-second backoff
delay never occurs. -/
theorem flex_backoff_sleeps_5_10_only :
    (run_attempts cEnv429 "k" cSpecFlex 3 0 cSt).2.sleeps = [5, 10]
    ∧ (run_attempts cEnv429 "k" cSpecFlex 3 0 cSt).2.engineCalls = 3
    ∧ (run_attempts cEnv429 "k" cSpecFlex 3 0 cSt).1 = .error ⟨429, "Resource unavailable"⟩
    ∧ [5, 10] ≠ [5, 10, 20]
    ∧ ¬ (20 ∈ ([5, 10] : List Nat)) := by
  have hcs : ∀ st' : St, create_swarm cEnv429 "k" cSpecFlex st'
      = (.error ⟨429, "Resource unavailable"⟩,
         { st' with engineCalls := st'.engineCalls + 1 }) := by
    intro st'
    unfold create_swarm
    simp [validate_swarm_spec, validateAgents, createAgents, create_single_agent,
      cEnv429, cEnvGood, cSpecFlex, cSpec, cAgentSpec, truthyOptStr, truthyOptList,
      check_model_name]
  have h := run_attempts_const429 cEnv429 "k" cSpecFlex cSt
    ⟨429, "Resource unavailable"⟩ hcs rfl rfl
  rw [h]
  refine ⟨by simp [cSt], by simp [cSt], rfl, by decide, by decide⟩

/-- C7 amended: on the flex tier a persistent resource-unavailable engine
failure is retried up to 3 attempts in total with backoff delays of 5 and
10 seconds (20 seconds is never slept) before the failure surfaces; on the
standard tier the single attempt is the whole loop, and a non-429 failure
is surfaced immediately without retry. -/
theorem flex_retry_amended :
    (∀ (env : Env) (api_key : String) (spec : SwarmSpecM) (st : St)
       (tt : Option String × Option (List String)) (agents : List BillingAgent) (e : HttpErr),
      validate_swarm_spec env.tok env.model_list spec = .ok tt →
      createAgents (spec.agents.getD []) = .ok agents →
      (∀ n, env.engineResults n = .error e) →
      e.code = 429 → spec.service_tier = "flex" →
      run_attempts env api_key spec 3 0 st
        = (.error e,
           { st with
              engineCalls := st.engineCalls + 3,
              sleeps := st.sleeps ++ [5, 10] }))
    ∧ (∀ (env : Env) (api_key : String) (spec : SwarmSpecM) (st : St),
        run_attempts env api_key spec 1 0 st = create_swarm env api_key spec st)
    ∧ (∀ (env : Env) (api_key : String) (spec : SwarmSpecM) (st : St) (e : HttpErr) (st1 : St),
        create_swarm env api_key spec st = (.error e, st1) → e.code ≠ 429 →
        run_attempts env api_key spec 3 0 st = (.error e, st1)) := by
  refine ⟨?_, ?_, ?_⟩
  · intro env api_key spec st tt agents e hval hag heng h429 hflex
    apply run_attempts_const429 env api_key spec st e _ h429 hflex
    intro st'
    unfold create_swarm
    simp only [hval, hag, heng]
  · intro env api_key spec st
    rcases hc2 : create_swarm env api_key spec st with ⟨res, st1⟩
    cases res with
    | ok r => rw [run_attempts_ok env api_key spec 1 0 st r st1 hc2]
    | error e =>
      rw [run_attempts_err_stop env api_key spec 1 0 st e st1 hc2
        (by rintro ⟨-, -, hh⟩; omega)]
  · intro env api_key spec st e st1 h hne
    exact run_attempts_err_stop env api_key spec 3 0 st e st1 h (fun hh => hne hh.1)

/-- Witness for flex_retry_amended at the concrete always-429 flex
scenario and at the concrete standard-tier spec. -/
theorem flex_retry_amended_witness :
    run_attempts cEnv429 "k" cSpecFlex 3 0 cSt
      = (.error ⟨429, "Resource unavailable"⟩,
         { cSt with
            engineCalls := cSt.engineCalls + 3,
            sleeps := cSt.sleeps ++ [5, 10] })
    ∧ run_attempts cEnvGood "k" cSpec 1 0 cSt = create_swarm cEnvGood "k" cSpec cSt := by
  constructor
  · refine flex_retry_amended.1 cEnv429 "k" cSpecFlex cSt (some "t", none)
      [⟨"a", none, none⟩] ⟨429, "Resource unavailable"⟩ ?_ ?_ (fun n => rfl) rfl rfl
    · simp [validate_swarm_spec, validateAgents, cEnv429, cEnvGood, cSpecFlex, cSpec,
        cAgentSpec, truthyOptStr, truthyOptList, check_model_name]
    · simp [createAgents, create_single_agent, cSpecFlex, cSpec, cAgentSpec,
        truthyOptStr]
  · exact flex_retry_amended.2.1 cEnvGood "k" cSpec cSt

/-! ## Theorems about the response cache -/

/-- Helper: the agent-validation loop only raises 400-class errors. -/
lemma validateAgents_error_code (tok : Tok) (ml : List String) :
    ∀ (l : List AgentSpecM) (e : HttpErr), validateAgents tok ml l = .error e → e.code = 400 := by
  intro l
  induction l with
  | nil => intro e h; simp [validateAgents] at h
  | cons a rest ih =>
    intro e h
    unfold validateAgents at h
    split_ifs at h with h1 h2 <;>
      first
        | (injection h with h'; subst h'; rfl)
        | exact ih e h

/-- Helper: validate_swarm_spec only raises 400-class errors. -/
lemma validate_error_code (tok : Tok) (ml : List String) (s : SwarmSpecM) (e : HttpErr)
    (h : validate_swarm_spec tok ml s = .error e) : e.code = 400 := by
  unfold validate_swarm_spec at h
  by_cases h1 : ¬ (truthyOptStr s.task || truthyOptList s.tasks || truthyOptStr s.messages)
  · rw [if_pos h1] at h
    injection h with h'; subst h'; rfl
  · rw [if_neg h1] at h
    cases hag : s.agents with
    | none => simp [hag] at h
    | some ags =>
      simp only [hag] at h
      cases hv : validateAgents tok ml ags with
      | ok u => simp [hv] at h
      | error e' =>
        simp only [hv] at h
        injection h with h'
        subst h'
        exact validateAgents_error_code tok ml ags e' hv

/-- Helper: create_single_agent only raises 400-class errors. -/
lemma create_single_agent_error_code (a : AgentSpecM) (e : HttpErr)
    (h : create_single_agent a = .error e) : e.code = 400 := by
  unfold create_single_agent at h
  split_ifs at h
  · injection h with h'; subst h'; rfl
  · injection h with h'; subst h'; rfl

/-- Helper: the agent-construction loop only raises 400-class errors. -/
lemma createAgents_error_code :
    ∀ (l : List AgentSpecM) (e : HttpErr), createAgents l = .error e → e.code = 400 := by
  intro l
  induction l with
  | nil => intro e h; simp [createAgents] at h
  | cons a rest ih =>
    intro e h
    unfold createAgents at h
    cases hs : create_single_agent a with
    | error e' =>
      simp only [hs] at h
      injection h with h'
      subst h'
      exact create_single_agent_error_code a e' hs
    | ok b =>
      simp only [hs] at h
      cases hr : createAgents rest with
      | error e' =>
        simp only [hr] at h
        injection h with h'
        subst h'
        exact ih e' hr
      | ok bs => simp [hr] at h

/-- Helper: deduct_credits never raises a 429 error. -/
lemma deduct_error_ne429 (env : Env) (api_key : String) (amount : ℚ)
    (product_name : String) (st : LedgerState) (e : HttpErr)
    (h : (deduct_credits env api_key amount product_name st).1 = .error e) :
    e.code ≠ 429 := by
  unfold deduct_credits at h
  by_cases h1 : ¬ env.accountExists
  · rw [if_pos h1] at h
    simp at h; subst h; decide
  · rw [if_neg h1] at h
    by_cases h2 : st.credit + st.free_credit < amount
    · rw [if_pos h2] at h
      simp at h; subst h; decide
    · rw [if_neg h2] at h
      by_cases h3 : ¬ env.insertOk
      · rw [if_pos h3] at h
        simp at h; subst h; decide
      · rw [if_neg h3] at h
        by_cases h4 : ¬ env.updateOk
        · rw [if_pos h4] at h
          simp at h; subst h; decide
        · rw [if_neg h4] at h
          simp at h

/-- Helper: when the engine oracle answers the current invocation, a
create_swarm failure is never a 429 resource-unavailable error (it is a
validation, construction or billing failure). -/
lemma create_swarm_error_ne429 (env : Env) (api_key : String) (spec : SwarmSpecM)
    (st : St) (e : HttpErr) (st1 : St)
    (H5 : ∃ out, env.engineResults st.engineCalls = .ok out)
    (h : create_swarm env api_key spec st = (.error e, st1)) : e.code ≠ 429 := by
  obtain ⟨out0, heng⟩ := H5
  unfold create_swarm at h
  cases hv : validate_swarm_spec env.tok env.model_list spec with
  | error e' =>
    simp only [hv, Prod.mk.injEq] at h
    obtain ⟨h1, -⟩ := h
    injection h1 with h1
    subst h1
    rw [validate_error_code env.tok env.model_list spec e' hv]
    decide
  | ok tt =>
    simp only [hv] at h
    cases hc : createAgents (spec.agents.getD []) with
    | error e' =>
      simp only [hc, Prod.mk.injEq] at h
      obtain ⟨h1, -⟩ := h
      injection h1 with h1
      subst h1
      rw [createAgents_error_code (spec.agents.getD []) e' hc]
      decide
    | ok agents =>
      simp only [hc, heng] at h
      rcases hd : deduct_credits env api_key
          (calculate_swarm_cost env.tok agents spec.task env.execTime out0
            spec.service_tier env.hour).total_cost
          ("swarm_execution_" ++ optStr spec.name) st.ledger with ⟨res, led⟩
      simp only [hd] at h
      cases res with
      | ok u => simp at h
      | error e' =>
        simp only [Prod.mk.injEq] at h
        obtain ⟨h1, -⟩ := h
        injection h1 with h1
        subst h1
        exact deduct_error_ne429 env api_key _ _ st.ledger e' (by rw [hd])

/-- Helper: looking up a key whose unique binding sits at the end of the
cache list finds exactly that binding. -/
lemma lookup_last (A : List (String × SwarmCacheEntry)) (key : String) (e : SwarmCacheEntry)
    (hA : ∀ x ∈ A, (x.1 == key) = false) :
    lookupCache (A ++ [(key, e)]) key = some e := by
  unfold lookupCache
  rw [List.find?_append]
  have hnone : A.find? (fun kv => kv.1 == key) = none :=
    List.find?_eq_none.mpr (fun x hx => by simp [hA x hx])
  rw [hnone]
  simp

/-- C6: two submissions of the same swarm specification back to back
(one whose cache key computes, i.e. name, task and swarm_type all
present — on a None field generate_cache_key raises before any lookup,
engine call or billing, so no first submission is ever billed; the first
a miss that succeeds on the first engine attempt, the second within the
effective TTL) invoke the engine exactly once, deduct the caller's
credits exactly once, and the second response is the originally billed
first response with the state untouched. -/
theorem cache_idempotent_billing (env : Env) (api_key : String) (spec : SwarmSpecM)
    (t1 t2 : ℚ) (jid1 jid2 : String) (st0 : St) (resp1 : SwarmResponse) (key : String)
    (Hkey : generate_cache_key spec = some key)
    (H1 : lookupCache st0.context_cache key = none)
    (H3 : st0.context_cache.length < MAX_CACHE_SIZE)
    (H5 : ∃ out, env.engineResults st0.engineCalls = .ok out)
    (H2 : (run_swarm_completion env api_key spec t1 jid1 st0).1 = .ok resp1)
    (H4 : t2 - t1 < (CACHE_TTL : ℚ)) :
    run_swarm_completion env api_key spec t2 jid2
        ((run_swarm_completion env api_key spec t1 jid1 st0).2)
      = (.ok resp1, (run_swarm_completion env api_key spec t1 jid1 st0).2)
    ∧ ((run_swarm_completion env api_key spec t1 jid1 st0).2).engineCalls
        = st0.engineCalls + 1
    ∧ ((run_swarm_completion env api_key spec t1 jid1 st0).2).ledger.records.length
        = st0.ledger.records.length + 1 := by
  have hkey : run_swarm_completion env api_key spec t1 jid1 st0
      = run_swarm_fresh env api_key spec t1 jid1 key st0 := by
    unfold run_swarm_completion
    simp only [Hkey, H1]
  rw [hkey] at H2 ⊢
  unfold run_swarm_fresh at H2 ⊢
  cases hag : spec.agents with
  | none => rw [hag] at H2; simp at H2
  | some ags =>
    simp only [hag] at H2 ⊢
    rcases hcs : create_swarm env api_key spec st0 with ⟨res0, st1⟩
    cases res0 with
    | error e =>
      have hstop := run_attempts_err_stop env api_key spec
        (if spec.service_tier = "flex" then 3 else 1) 0 st0 e st1 hcs
        (fun hh => (create_swarm_error_ne429 env api_key spec st0 e st1 H5 hcs) hh.1)
      rw [hstop] at H2
      simp at H2
    | ok r =>
      have hloop := run_attempts_ok env api_key spec
        (if spec.service_tier = "flex" then 3 else 1) 0 st0 r st1 hcs
      rw [hloop] at H2 ⊢
      simp only at H2 ⊢
      replace H2 : SwarmResponse.mk jid1 "success" spec.name spec.description
          spec.swarm_type r (if spec.swarm_type = some "MALT" then 14 else ags.length)
          spec.service_tier spec.tasks spec.messages = resp1 := by
        simpa using H2
      rw [H2]
      obtain ⟨agents, -, -, heq, hded⟩ := create_swarm_ok_elim env api_key spec st0 r
        (by rw [hcs])
      rw [hcs] at heq
      have hst1 : st1 = { st0 with
          engineCalls := st0.engineCalls + 1,
          ledger := (deduct_credits env api_key
            (calculate_swarm_cost env.tok agents spec.task env.execTime r
              spec.service_tier env.hour).total_cost
            ("swarm_execution_" ++ optStr spec.name) st0.ledger).2 } := by
        have := heq
        simp only [Prod.mk.injEq] at this
        exact this.2
      -- the cache after the first call keeps the fresh entry at the end,
      -- with every earlier entry failing the key test
      set entry : SwarmCacheEntry := ⟨resp1, t1⟩ with hentrydef
      set A0 := st1.context_cache.filter (fun kv => !(kv.1 == key)) with hA0
      have hA0free : ∀ x ∈ A0, (x.1 == key) = false := by
        intro x hx
        have := (List.mem_filter.mp hx).2
        simpa using this
      have hA0len : A0.length ≤ st0.context_cache.length := by
        rw [hA0, hst1]
        exact List.length_filter_le _ _
      have hcacheform : ∃ A, (∀ x ∈ A, (x.1 == key) = false)
          ∧ (if qmod t1 (CACHE_CLEANUP_INTERVAL : ℚ) < 1
              then cleanup_cache t1 (A0 ++ [(key, entry)])
              else A0 ++ [(key, entry)]) = A ++ [(key, entry)] := by
        by_cases hq : qmod t1 (CACHE_CLEANUP_INTERVAL : ℚ) < 1
        · refine ⟨(A0.filter (fun kv => decide (t1 - kv.2.timestamp < (CACHE_TTL : ℚ)))), ?_, ?_⟩
          · intro x hx
            exact hA0free x (List.mem_filter.mp hx).1
          · rw [if_pos hq]
            unfold cleanup_cache
            rw [List.filter_append]
            have hent : ([(key, entry)].filter
                (fun kv => decide (t1 - kv.2.timestamp < (CACHE_TTL : ℚ))))
                = [(key, entry)] := by
              simp [hentrydef, CACHE_TTL]
            rw [hent]
            rw [if_neg]
            intro hlen
            have h1 : (A0.filter (fun kv => decide (t1 - kv.2.timestamp < (CACHE_TTL : ℚ)))).length
                ≤ A0.length := List.length_filter_le _ _
            have h2 : ((A0.filter (fun kv => decide (t1 - kv.2.timestamp < (CACHE_TTL : ℚ))))
                ++ [(key, entry)]).length
                ≤ A0.length + 1 := by
              rw [List.length_append]
              simp
              omega
            simp only [MAX_CACHE_SIZE] at hlen H3
            omega
        · exact ⟨A0, hA0free, by rw [if_neg hq]⟩
      obtain ⟨A, hAfree, hA⟩ := hcacheform
      rw [hA]
      refine ⟨?_, ?_, ?_⟩
      · have hlook : lookupCache (A ++ [(key, entry)]) key = some entry :=
          lookup_last A key entry hAfree
        unfold run_swarm_completion
        simp only [Hkey]
        rw [hlook]
        dsimp only
        rw [if_pos (show t2 - entry.timestamp < (CACHE_TTL : ℚ) by
          rw [hentrydef]; simpa using H4)]
      · dsimp only
        rw [hst1]
      · dsimp only
        rw [hst1]
        have hrec := deduct_ok_records env api_key
          ("swarm_execution_" ++ optStr spec.name) st0.ledger
          (calculate_swarm_cost env.tok agents spec.task env.execTime r
            spec.service_tier env.hour).total_cost hded
        simp [hrec]

/-! ## Concrete evaluation of the orchestrator -/

/-- The transaction record of the concrete zero-token run: the flat fee
0.01 truncates to an integer charge of 0. -/
def cRec : LedgerRecord := ⟨"user1", "k", 0, "swarm_execution_s"⟩

/-- The process state after the concrete create_swarm run: one engine
call, the flat fee deducted from the promotional balance, one record. -/
def cSt1 : St :=
  { context_cache := [], agent_cache := [], ledger := ⟨499 / 100, 10, [cRec]⟩,
    engineCalls := 1, agentRuns := 0, sleeps := [] }

/-- Helper: the concrete zero-token standard-tier run of create_swarm on
any state with the concrete ledger and no prior engine call succeeds,
bills the flat fee 0.01 and returns the engine output. -/
lemma create_swarm_concrete_gen (st : St) (h1 : st.ledger = ⟨5, 10, []⟩)
    (h2 : st.engineCalls = 0) :
    create_swarm cEnvTok0 "k" cSpec st
      = (.ok (.str "out"),
         { st with engineCalls := 1, ledger := ⟨499 / 100, 10, [cRec]⟩ }) := by
  unfold create_swarm
  rw [h1, h2]
  simp [validate_swarm_spec, validateAgents, createAgents, create_single_agent,
    cEnvTok0, cEnvGood, cSpec, cAgentSpec, cRec, truthyOptStr, truthyOptList,
    check_model_name, calculate_swarm_cost, agentInputTokens, outputTokensOf,
    AgentOutputs.truthy, is_night_time, deduct_credits, round6, roundTo, round2,
    COST_PER_AGENT, COST_PER_1M_INPUT_TOKENS, COST_PER_1M_OUTPUT_TOKENS,
    FLEX_INPUT_DISCOUNT, FLEX_OUTPUT_DISCOUNT, pyInt, round_eq, optStr]
  norm_num

/-- Helper: the concrete create_swarm run from the fresh state. -/
lemma create_swarm_concrete :
    create_swarm cEnvTok0 "k" cSpec cSt = (.ok (.str "out"), cSt1) := by
  rw [create_swarm_concrete_gen cSt rfl rfl]
  rfl

/-- Helper: the concrete zero-token standard-tier run of create_swarm on
the keyed specification (create_swarm never reads the swarm type before
the engine call, so the outcome matches the cSpec run). -/
lemma create_swarm_concreteK_gen (st : St) (h1 : st.ledger = ⟨5, 10, []⟩)
    (h2 : st.engineCalls = 0) :
    create_swarm cEnvTok0 "k" cSpecK st
      = (.ok (.str "out"),
         { st with engineCalls := 1, ledger := ⟨499 / 100, 10, [cRec]⟩ }) := by
  unfold create_swarm
  rw [h1, h2]
  simp [validate_swarm_spec, validateAgents, createAgents, create_single_agent,
    cEnvTok0, cEnvGood, cSpecK, cSpec, cAgentSpec, cRec, truthyOptStr, truthyOptList,
    check_model_name, calculate_swarm_cost, agentInputTokens, outputTokensOf,
    AgentOutputs.truthy, is_night_time, deduct_credits, round6, roundTo, round2,
    COST_PER_AGENT, COST_PER_1M_INPUT_TOKENS, COST_PER_1M_OUTPUT_TOKENS,
    FLEX_INPUT_DISCOUNT, FLEX_OUTPUT_DISCOUNT, pyInt, round_eq, optStr]
  norm_num

/-- The response envelope of the concrete first submission. -/
def cResp1 : SwarmResponse :=
  { job_id := "job1", status := "success", swarm_name := some "s", description := none,
    swarm_type := some "SequentialWorkflow", output := .str "out", number_of_agents := 1,
    service_tier := "standard", tasks := none, messages := none }

/-- The process state after the concrete first submission: the billed
state plus the cached response stored at its creation time. -/
def cSt1c : St :=
  { cSt1 with context_cache := [(cKeyK, ⟨cResp1, 1⟩)] }

/-- Helper: the concrete first submission through run_swarm_completion
succeeds, bills once and caches its response. -/
lemma run_swarm_concrete :
    run_swarm_completion cEnvTok0 "k" cSpecK 1 "job1" cSt = (.ok cResp1, cSt1c) := by
  unfold run_swarm_completion run_swarm_fresh
  rw [show generate_cache_key cSpecK = some cKeyK from rfl]
  dsimp only
  rw [run_attempts_ok cEnvTok0 "k" cSpecK
    (if cSpecK.service_tier = "flex" then 3 else 1) 0 cSt (.str "out") cSt1
    (create_swarm_concreteK_gen cSt rfl rfl)]
  have hq : (qmod 1 (CACHE_CLEANUP_INTERVAL : ℚ) < 1) = False := by
    simp only [eq_iff_iff, iff_false]
    norm_num [qmod, CACHE_CLEANUP_INTERVAL]
  simp [lookupCache, cSt, cSt1, cSt1c, cResp1, cSpecK, cSpec, hq]

/-- Witness for billing_on_success_amended: the concrete successful
create_swarm run appends one transaction record, and the concrete agent
completion leaves the ledger untouched. -/
theorem billing_on_success_amended_witness :
    (create_swarm cEnvTok0 "k" cSpec cSt).2.ledger.records.length
      = cSt.ledger.records.length + 1
    ∧ (run_agent_completion cEnvGood cAc 1 "agent-1" cSt).2.ledger = cSt.ledger :=
  ⟨billing_on_success_amended.1 cEnvTok0 "k" cSpec cSt (.str "out")
      (by rw [create_swarm_concrete]),
    billing_on_success_amended.2 cEnvGood cAc 1 "agent-1" cSt⟩

/-- Witness for cache_idempotent_billing: the concrete pair of
back-to-back submissions one second apart. -/
theorem cache_idempotent_billing_witness :
    run_swarm_completion cEnvTok0 "k" cSpecK 2 "job2"
        ((run_swarm_completion cEnvTok0 "k" cSpecK 1 "job1" cSt).2)
      = (.ok cResp1, (run_swarm_completion cEnvTok0 "k" cSpecK 1 "job1" cSt).2)
    ∧ ((run_swarm_completion cEnvTok0 "k" cSpecK 1 "job1" cSt).2).engineCalls
        = cSt.engineCalls + 1
    ∧ ((run_swarm_completion cEnvTok0 "k" cSpecK 1 "job1" cSt).2).ledger.records.length
        = cSt.ledger.records.length + 1 :=
  cache_idempotent_billing cEnvTok0 "k" cSpecK 1 2 "job1" "job2" cSt cResp1 cKeyK
    rfl rfl (by norm_num [cSt, MAX_CACHE_SIZE]) ⟨.str "out", rfl⟩
    (by rw [run_swarm_concrete]) (by norm_num [CACHE_TTL])

/-! ## The rebound cache TTL (C8) -/

/-- A previously cached response for the concrete keyed specification. -/
def cRespCached : SwarmResponse :=
  { job_id := "old", status := "success", swarm_name := some "s", description := none,
    swarm_type := some "SequentialWorkflow", output := .str "old", number_of_agents := 1,
    service_tier := "standard", tasks := none, messages := none }

/-- The fresh state holding that cached response, created at time 0. -/
def cStCached : St :=
  { cSt with context_cache := [(cKeyK, ⟨cRespCached, 0⟩)] }

/-- C8: the swarm cache comments and assigns CACHE_TTL = 3600 at
src/api/api.py:748, but the agent-cache section rebinds the same
module-level name to 300 at line 1567, and the functions read it at call
time: for a specification whose name, task and swarm_type are all present
(so the cache key computes), a cache entry of age 3599 seconds (younger
than the documented 3600-second TTL) is treated as a miss by
run_swarm_completion, the engine is invoked again, and cleanup_cache
removes the entry. -/
theorem cache_ttl_rebound_miss_at_3599 :
    CACHE_TTL_as_written = 3600
    ∧ CACHE_TTL = 300
    ∧ ((3599 : ℚ) - 0 < (CACHE_TTL_as_written : ℚ))
    ∧ ¬ ((3599 : ℚ) - 0 < (CACHE_TTL : ℚ))
    ∧ (run_swarm_completion cEnvTok0 "k" cSpecK 3599 "job9" cStCached).1 ≠ .ok cRespCached
    ∧ (run_swarm_completion cEnvTok0 "k" cSpecK 3599 "job9" cStCached).2.engineCalls
        = cStCached.engineCalls + 1
    ∧ cleanup_cache 3599 [(cKeyK, ⟨cRespCached, 0⟩)] = [] := by
  have heval : run_swarm_completion cEnvTok0 "k" cSpecK 3599 "job9" cStCached
      = (.ok { job_id := "job9", status := "success", swarm_name := some "s",
               description := none, swarm_type := some "SequentialWorkflow",
               output := .str "out",
               number_of_agents := 1, service_tier := "standard", tasks := none,
               messages := none },
         { context_cache :=
             [(cKeyK,
               ⟨{ job_id := "job9", status := "success", swarm_name := some "s",
                  description := none, swarm_type := some "SequentialWorkflow",
                  output := .str "out",
                  number_of_agents := 1, service_tier := "standard", tasks := none,
                  messages := none }, 3599⟩)],
           agent_cache := [], ledger := ⟨499 / 100, 10, [cRec]⟩,
           engineCalls := 1, agentRuns := 0, sleeps := [] }) := by
    unfold run_swarm_completion run_swarm_fresh
    rw [show generate_cache_key cSpecK = some cKeyK from rfl]
    dsimp only
    rw [show lookupCache cStCached.context_cache cKeyK
        = some ⟨cRespCached, 0⟩ by simp [lookupCache, cStCached, cSt]]
    dsimp only
    rw [if_neg (show ¬ ((3599 : ℚ) - (0 : ℚ) < (CACHE_TTL : ℚ)) by
      norm_num [CACHE_TTL])]
    rw [run_attempts_ok cEnvTok0 "k" cSpecK
      (if cSpecK.service_tier = "flex" then 3 else 1) 0 cStCached (.str "out")
      ({ cStCached with engineCalls := 1, ledger := ⟨499 / 100, 10, [cRec]⟩ })
      (create_swarm_concreteK_gen cStCached rfl rfl)]
    have hq : (qmod 3599 (CACHE_CLEANUP_INTERVAL : ℚ) < 1) = False := by
      simp only [eq_iff_iff, iff_false]
      norm_num [qmod, CACHE_CLEANUP_INTERVAL]
    simp [cStCached, cSt, cSpecK, cSpec, cRespCached, hq]
  refine ⟨rfl, rfl, by norm_num [CACHE_TTL_as_written], by norm_num [CACHE_TTL],
    ?_, ?_, ?_⟩
  · rw [heval]
    simp [cRespCached]
  · rw [heval]
    rfl
  · unfold cleanup_cache
    rw [if_neg]
    · simp [CACHE_TTL]
      norm_num
    · simp [CACHE_TTL]
      norm_num [MAX_CACHE_SIZE]

/-! ## The unawaited batch loop (C10) -/

/-- C10: the batch endpoint loop binds unawaited coroutine objects: the
returned list has one entry per request in order, but a request that would
fail when actually processed (here: an unknown model name) still yields a
coroutine entry rather than the error entry of the unreachable except
branch. -/
theorem batched_returns_unawaited_coroutines :
    batched_agent_completion [cBadReq] cSt = (.ok [BatchEntry.coroutine cBadReq], cSt)
    ∧ (∀ msg, BatchEntry.coroutine cBadReq ≠ BatchEntry.errorEntry msg)
    ∧ (run_agent_completion cEnvGood cBadReq 1 "id1" cSt).1 = .error errModelUnavailable := by
  refine ⟨rfl, fun msg => by simp, ?_⟩
  unfold run_agent_completion
  simp [cEnvGood, cBadReq, cAgentSpec, combinedPromptOf, check_model_name]

/-! ## Scheduler (C9)

The repository declares the scheduled-jobs store (scheduled_jobs,
src/api/api.py:100-101) but contains no scheduler implementation; the
operations below are modelled from the specification, section 4.4. -/

/-- Modelled from the spec: a ScheduledJob awaiting activation — its
unique job id, its UTC activation time and the caller identity
(src/api/api.py:100-101 declares only the empty store). -/
structure ScheduledJobM where
  job_id : String
  activation : ℚ
  caller : String
deriving DecidableEq, Repr

/-- Modelled from the spec: the scheduler state — the pending set, and
the log of dispatches through the orchestrator (job id and dispatch
time), each entry standing for one engine invocation. -/
structure SchedulerState where
  pending : List ScheduledJobM
  dispatched : List (String × ℚ)
deriving DecidableEq, Repr

/-- The NotFound failure of cancel on a non-pending job id. -/
def errSchedNotFound : HttpErr := ⟨404, "Scheduled job not found"⟩

/-- Modelled from the spec: cancel(jobId) is valid only while Pending;
it removes the job from the pending set, and fails with NotFound for an
already-dispatched or unknown id. -/
def sched_cancel (st : SchedulerState) (id : String) :
    Except HttpErr Unit × SchedulerState :=
  if st.pending.any (fun j => j.job_id == id) then
    (.ok (), { st with pending := st.pending.filter (fun j => !(j.job_id == id)) })
  else
    (.error errSchedNotFound, st)

/-- Modelled from the spec: the activation check — once the wall clock
reaches a pending job's activation time, the job is dispatched through
the orchestrator and removed from the pending set. -/
def sched_poll (st : SchedulerState) (now : ℚ) : SchedulerState :=
  { pending := st.pending.filter (fun j => !(decide (j.activation ≤ now))),
    dispatched := st.dispatched
      ++ (st.pending.filter (fun j => decide (j.activation ≤ now))).map
          (fun j => (j.job_id, now)) }

/-- An observable scheduler event: a poll of the activation check at a
wall-clock instant, or a cancellation request for a job id. -/
inductive SchedAction where
  | poll (now : ℚ) : SchedAction
  | cancel (id : String) : SchedAction

/-- One scheduler transition. -/
def sched_step (st : SchedulerState) : SchedAction → SchedulerState
  | .poll t => sched_poll st t
  | .cancel id => (sched_cancel st id).2

/-- A run of the scheduler over a sequence of events. -/
def sched_run (st : SchedulerState) (acts : List SchedAction) : SchedulerState :=
  acts.foldl sched_step st

/-- Whether an action is not a cancellation of the given job id. -/
def noCancelOf : SchedAction → String → Bool
  | .cancel i, id => !(i == id)
  | .poll _, _ => true

/-- Whether a run contains no cancellation of the given job id. -/
def noCancel (acts : List SchedAction) (id : String) : Bool :=
  acts.all (fun a => noCancelOf a id)

/-- Helper: filters commute. -/
lemma filter_comm' {α} (l : List α) (p q : α → Bool) :
    (l.filter p).filter q = (l.filter q).filter p := by
  induction l with
  | nil => rfl
  | cons x xs ih =>
    by_cases hp : p x = true <;> by_cases hq : q x = true <;>
      simp [List.filter_cons, hp, hq, ih]

/-- Helper: filtering by a predicate after filtering by its negation
gives the empty list. -/
lemma filter_not_filter {α} (l : List α) (p : α → Bool) :
    (l.filter (fun x => ! p x)).filter p = [] := by
  induction l with
  | nil => rfl
  | cons x xs ih =>
    by_cases hp : p x = true <;> simp [List.filter_cons, hp, ih]

/-- Helper: filtering a sublist by an everywhere-failing predicate stays
empty. -/
lemma filter_sub_nil {α} (l : List α) (p q : α → Bool) (h : l.filter p = []) :
    (l.filter q).filter p = [] := by
  induction l with
  | nil => rfl
  | cons x xs ih =>
    by_cases hp : p x = true
    · rw [List.filter_cons_of_pos hp] at h
      simp at h
    · have hp' : p x = false := by simpa using hp
      rw [List.filter_cons_of_neg (by simp [hp'])] at h
      by_cases hq : q x = true
      · rw [List.filter_cons_of_pos hq, List.filter_cons_of_neg (by simp [hp'])]
        exact ih h
      · rw [List.filter_cons_of_neg (by simpa using hq)]
        exact ih h

/-- Helper: filtering the dispatch pairs of mapped jobs is mapping the
filtered jobs. -/
lemma filter_map_pair (l : List ScheduledJobM) (t : ℚ) (id : String) :
    ((l.map (fun j => (j.job_id, t))).filter (fun d => d.1 == id))
      = (l.filter (fun j => j.job_id == id)).map (fun j => (j.job_id, t)) := by
  induction l with
  | nil => rfl
  | cons x xs ih =>
    by_cases h : (x.job_id == id) = true <;> simp [List.filter_cons, h, ih]

/-- The scheduler invariant for one scheduled job: either it is the
unique pending entry for its id and has never been dispatched, or it has
left the pending set and been dispatched exactly once, at or after its
activation time. -/
def SchedInv (j : ScheduledJobM) (st : SchedulerState) : Prop :=
  (st.pending.filter (fun x => x.job_id == j.job_id) = [j]
    ∧ st.dispatched.filter (fun d => d.1 == j.job_id) = [])
  ∨ (st.pending.filter (fun x => x.job_id == j.job_id) = []
    ∧ ∃ td, st.dispatched.filter (fun d => d.1 == j.job_id) = [(j.job_id, td)]
        ∧ j.activation ≤ td)

/-- Helper: one step that is not a cancellation of the job preserves the
invariant. -/
lemma sched_inv_step (j : ScheduledJobM) (st : SchedulerState) (a : SchedAction)
    (ha : noCancelOf a j.job_id = true) (hinv : SchedInv j st) :
    SchedInv j (sched_step st a) := by
  cases a with
  | poll t =>
    rcases hinv with ⟨hp, hd⟩ | ⟨hp, td, hd, hle⟩
    · by_cases hdue : decide (j.activation ≤ t) = true
      · right
        constructor
        · unfold sched_step sched_poll
          rw [filter_comm', hp]
          simp [List.filter_cons, hdue]
        · refine ⟨t, ?_, by simpa using hdue⟩
          unfold sched_step sched_poll
          rw [List.filter_append, hd, filter_map_pair, filter_comm', hp]
          simp [List.filter_cons, hdue]
      · left
        constructor
        · unfold sched_step sched_poll
          rw [filter_comm', hp]
          simp [List.filter_cons, Bool.not_eq_true _ ▸ hdue,
            show decide (j.activation ≤ t) = false by simpa using hdue]
        · unfold sched_step sched_poll
          rw [List.filter_append, hd, filter_map_pair, filter_comm', hp]
          simp [List.filter_cons,
            show decide (j.activation ≤ t) = false by simpa using hdue]
    · right
      constructor
      · unfold sched_step sched_poll
        rw [filter_comm', hp]
        rfl
      · refine ⟨td, ?_, hle⟩
        unfold sched_step sched_poll
        rw [List.filter_append, hd, filter_map_pair, filter_comm', hp]
        rfl
  | cancel i =>
    have hne : (i == j.job_id) = false := by
      simpa [noCancelOf] using ha
    unfold sched_step sched_cancel
    dsimp only
    by_cases hmem : st.pending.any (fun x => x.job_id == i) = true
    · rw [if_pos hmem]
      rcases hinv with ⟨hp, hd⟩ | ⟨hp, td, hd, hle⟩
      · left
        refine ⟨?_, hd⟩
        rw [filter_comm', hp]
        have hne2 : (j.job_id == i) = false := by
          rw [beq_eq_false_iff_ne] at hne ⊢
          exact fun h => hne h.symm
        simp [List.filter_cons, hne2]
      · right
        refine ⟨?_, td, hd, hle⟩
        rw [filter_comm', hp]
        rfl
    · rw [if_neg hmem]
      exact hinv

/-- Helper: a run with no cancellation of the job preserves the
invariant. -/
lemma sched_inv_run (j : ScheduledJobM) (acts : List SchedAction) :
    ∀ st, noCancel acts j.job_id = true → SchedInv j st →
      SchedInv j (sched_run st acts) := by
  induction acts with
  | nil => intro st _ h; exact h
  | cons a rest ih =>
    intro st hnc hinv
    simp only [noCancel, List.all_cons, Bool.and_eq_true] at hnc
    exact ih (sched_step st a) (by simpa [noCancel] using hnc.2)
      (sched_inv_step j st a hnc.1 hinv)

/-- Helper: once the job is neither pending nor dispatched, it never
appears in the dispatch log. -/
lemma sched_gone_step (id : String) (st : SchedulerState) (a : SchedAction)
    (hp : st.pending.filter (fun x => x.job_id == id) = [])
    (hd : st.dispatched.filter (fun d => d.1 == id) = []) :
    (sched_step st a).pending.filter (fun x => x.job_id == id) = []
    ∧ (sched_step st a).dispatched.filter (fun d => d.1 == id) = [] := by
  cases a with
  | poll t =>
    unfold sched_step sched_poll
    constructor
    · exact filter_sub_nil _ _ _ hp
    · rw [List.filter_append, hd, filter_map_pair]
      rw [filter_sub_nil st.pending (fun x => x.job_id == id)
        (fun j => decide (j.activation ≤ t)) hp]
      rfl
  | cancel i =>
    unfold sched_step sched_cancel
    dsimp only
    by_cases hmem : st.pending.any (fun x => x.job_id == i) = true
    · rw [if_pos hmem]
      exact ⟨filter_sub_nil _ _ _ hp, hd⟩
    · rw [if_neg hmem]
      exact ⟨hp, hd⟩

/-- Helper: the job id never re-enters the pending set once absent. -/
lemma sched_pend_nil_step (id : String) (st : SchedulerState) (a : SchedAction)
    (hp : st.pending.filter (fun x => x.job_id == id) = []) :
    (sched_step st a).pending.filter (fun x => x.job_id == id) = [] := by
  cases a with
  | poll t =>
    unfold sched_step sched_poll
    exact filter_sub_nil _ _ _ hp
  | cancel i =>
    unfold sched_step sched_cancel
    dsimp only
    by_cases hmem : st.pending.any (fun x => x.job_id == i) = true
    · rw [if_pos hmem]
      exact filter_sub_nil _ _ _ hp
    · rw [if_neg hmem]
      exact hp

/-- Helper: run version of sched_pend_nil_step. -/
lemma sched_pend_nil_run (id : String) (acts : List SchedAction) :
    ∀ st, st.pending.filter (fun x => x.job_id == id) = [] →
      (sched_run st acts).pending.filter (fun x => x.job_id == id) = [] := by
  induction acts with
  | nil => intro st h; exact h
  | cons a rest ih =>
    intro st h
    exact ih (sched_step st a) (sched_pend_nil_step id st a h)

/-- C9: cancelling a pending, never-dispatched job succeeds and no
dispatch of it ever occurs in any later run; cancelling a non-pending
(dispatched or unknown) id fails with NotFound leaving the state
untouched; and a pending job that is never cancelled is dispatched
exactly once, at or after its activation time, as soon as a poll at or
past that time occurs. -/
theorem scheduler_lifecycle :
    (∀ (st : SchedulerState) (id : String) (acts : List SchedAction),
      st.pending.any (fun j => j.job_id == id) = true →
      st.dispatched.filter (fun d => d.1 == id) = [] →
      (sched_cancel st id).1 = .ok ()
      ∧ (sched_run (sched_cancel st id).2 acts).dispatched.filter
          (fun d => d.1 == id) = [])
    ∧ (∀ (st : SchedulerState) (id : String),
        st.pending.any (fun j => j.job_id == id) = false →
        sched_cancel st id = (.error errSchedNotFound, st))
    ∧ (∀ (j : ScheduledJobM) (st0 : SchedulerState) (l1 : List SchedAction) (t : ℚ)
         (l2 : List SchedAction),
        st0.pending.filter (fun x => x.job_id == j.job_id) = [j] →
        st0.dispatched.filter (fun d => d.1 == j.job_id) = [] →
        noCancel (l1 ++ SchedAction.poll t :: l2) j.job_id = true →
        j.activation ≤ t →
        ∃ td, (sched_run st0 (l1 ++ SchedAction.poll t :: l2)).dispatched.filter
            (fun d => d.1 == j.job_id) = [(j.job_id, td)]
          ∧ j.activation ≤ td) := by
  refine ⟨?_, ?_, ?_⟩
  · intro st id acts hpend hdisp
    have hstate : (sched_cancel st id).2
        = { st with pending := st.pending.filter (fun j => !(j.job_id == id)) } := by
      unfold sched_cancel
      rw [if_pos hpend]
    have hrun : ∀ (acts : List SchedAction) (st' : SchedulerState),
        st'.pending.filter (fun x => x.job_id == id) = [] →
        st'.dispatched.filter (fun d => d.1 == id) = [] →
        (sched_run st' acts).dispatched.filter (fun d => d.1 == id) = [] := by
      intro acts
      induction acts with
      | nil => intro st' _ h2; exact h2
      | cons a rest ih =>
        intro st' h1 h2
        obtain ⟨g1, g2⟩ := sched_gone_step id st' a h1 h2
        exact ih (sched_step st' a) g1 g2
    refine ⟨by unfold sched_cancel; rw [if_pos hpend], ?_⟩
    rw [hstate]
    exact hrun acts _ (filter_not_filter st.pending _) hdisp
  · intro st id h
    unfold sched_cancel
    rw [if_neg (by simp [h])]
  · intro j st0 l1 t l2 hp hd hnc hact
    have hsplit : sched_run st0 (l1 ++ SchedAction.poll t :: l2)
        = sched_run (sched_step (sched_run st0 l1) (SchedAction.poll t)) l2 := by
      unfold sched_run
      rw [List.foldl_append, List.foldl_cons]
    simp only [noCancel, List.all_append, List.all_cons, Bool.and_eq_true] at hnc
    have hinv1 : SchedInv j (sched_run st0 l1) :=
      sched_inv_run j l1 st0 (by simp [noCancel, hnc.1]) (Or.inl ⟨hp, hd⟩)
    have hinv2 : SchedInv j (sched_step (sched_run st0 l1) (SchedAction.poll t)) :=
      sched_inv_step j _ _ rfl hinv1
    have hpend2 : (sched_step (sched_run st0 l1)
        (SchedAction.poll t)).pending.filter (fun x => x.job_id == j.job_id) = [] := by
      rcases hinv1 with ⟨hp1, -⟩ | ⟨hp1, -⟩
      · unfold sched_step sched_poll
        rw [filter_comm', hp1]
        simp [List.filter_cons, show decide (j.activation ≤ t) = true by
          simpa using hact]
      · unfold sched_step sched_poll
        rw [filter_comm', hp1]
        rfl
    have hinv3 : SchedInv j (sched_run (sched_step (sched_run st0 l1)
        (SchedAction.poll t)) l2) :=
      sched_inv_run j l2 _ (by simp [noCancel, hnc.2.2]) hinv2
    have hpend3 := sched_pend_nil_run j.job_id l2 _ hpend2
    rcases hinv3 with ⟨hpL, -⟩ | ⟨-, td, hd3, hle⟩
    · rw [hpend3] at hpL
      simp at hpL
    · rw [hsplit]
      exact ⟨td, hd3, hle⟩

/-- A concrete scheduled job activating at time 5. -/
def cJob : ScheduledJobM := ⟨"job1", 5, "u"⟩

/-- The concrete scheduler state holding just that pending job. -/
def cSched0 : SchedulerState := ⟨[cJob], []⟩

/-- Witness for scheduler_lifecycle: cancelling the pending job prevents
any later dispatch; cancelling an unknown id fails with NotFound; and an
uncancelled job polled at times 3 and 6 is dispatched exactly once, at
time 6. -/
theorem scheduler_lifecycle_witness :
    ((sched_cancel cSched0 "job1").1 = .ok ()
      ∧ (sched_run (sched_cancel cSched0 "job1").2
          [SchedAction.poll 10]).dispatched.filter (fun d => d.1 == "job1") = [])
    ∧ sched_cancel cSched0 "nope" = (.error errSchedNotFound, cSched0)
    ∧ (∃ td, (sched_run cSched0
          ([SchedAction.poll 3] ++ SchedAction.poll 6 :: [])).dispatched.filter
            (fun d => d.1 == cJob.job_id) = [(cJob.job_id, td)]
        ∧ cJob.activation ≤ td) := by
  refine ⟨?_, ?_, ?_⟩
  · exact scheduler_lifecycle.1 cSched0 "job1" [SchedAction.poll 10] rfl rfl
  · exact scheduler_lifecycle.2.1 cSched0 "nope" rfl
  · exact scheduler_lifecycle.2.2 cJob cSched0 [SchedAction.poll 3] 6 [] rfl rfl rfl
      (by norm_num [cJob])

end SwarmsApi
